import Mathlib

/-!
Shallow embedding of `caravel/data/__init__.py`, the sample-data seeding
module of the caravel BI application.  Python dicts holding chart
parameters become association lists with insert-or-append semantics,
the ORM session becomes explicit state passing on a `Store`, pandas
frames become column-oriented lists of values, and the JSON blobs
persisted on slices and dashboards are kept in structured form
(`json.dumps(..., sort_keys=True)` becomes an insertion sort on keys).
-/

namespace Caravel

/-- JSON-representable parameter values appearing in the loaders'
literal configuration dictionaries. -/
inductive JValue where
  | s (v : String)
  | i (v : Int)
  | arr (vs : List JValue)
deriving Repr

/-- A Python dict with string keys, in insertion order. -/
abbrev Dict := List (String × JValue)

/-- The keys of a dict, in order. -/
def dictKeys (d : Dict) : List String := d.map Prod.fst

/-- `d[k] = v`: overwrite the entry for `k` in place if present,
else append it (Python dict assignment semantics). -/
def dictSet (d : Dict) (k : String) (v : JValue) : Dict :=
  if (dictKeys d).contains k then
    d.map (fun kv => if kv.1 == k then (k, v) else kv)
  else d ++ [(k, v)]

/-- `d.update(u)` from Python: set every entry of `u` into `d`, later
entries winning. -/
def dictUpdate (d u : Dict) : Dict :=
  u.foldl (fun acc kv => dictSet acc kv.1 kv.2) d

/-- Dict lookup: value of the first entry with the given key. -/
def dictGet (d : Dict) (k : String) : Option JValue :=
  (d.find? (fun kv => kv.1 == k)).map Prod.snd

/-- Code-point lexicographic order on character lists (Python string
comparison, used by `sort_keys` on the ASCII keys at hand). -/
def charsLeB : List Char → List Char → Bool
  | [], _ => true
  | _ :: _, [] => false
  | a :: as, b :: bs =>
    if a.toNat < b.toNat then true
    else if b.toNat < a.toNat then false
    else charsLeB as bs

/-- Python string comparison `a <= b`. -/
def strLeB (a b : String) : Bool := charsLeB a.data b.data

/-- Insert one entry into a key-sorted dict, keeping keys sorted. -/
def insertByKey (kv : String × JValue) : Dict → Dict
  | [] => [kv]
  | x :: xs => if strLeB kv.1 x.1 then kv :: x :: xs else x :: insertByKey kv xs

/-- Key ordering applied by `json.dumps(..., sort_keys=True)`:
insertion sort of the entries by key. -/
def sortByKey : Dict → Dict
  | [] => []
  | x :: xs => insertByKey x (sortByKey xs)

/-- The time unit given to `pandas.to_datetime` (`unit='ms'`,
`unit='s'`, or no unit argument). -/
inductive TimeUnit where
  | ms
  | secs
  | std
deriving Repr, DecidableEq

/-- A cell value in a loaded data frame.  `datetime orig u` marks a
value converted by `pandas.to_datetime` with unit `u`, keeping the
original value it was converted from. -/
inductive Value where
  | int (n : Int)
  | str (s : String)
  | datetime (orig : Value) (u : TimeUnit)
deriving Repr, DecidableEq

/-- `pandas.to_datetime(col, unit=u)` over a whole column. -/
def pd_to_datetime (u : TimeUnit) (col : List Value) : List Value :=
  col.map (fun v => Value.datetime v u)

/-- A pandas data frame, column-oriented: column name to cell values. -/
abbrev Frame := List (String × List Value)

/-- `col.replace('.', '_')` on a column name. -/
def replaceDots (s : String) : String :=
  s.map (fun c => if c = '.' then '_' else c)

/-- `pdf.columns = [col.replace('.', '_') for col in pdf.columns]`. -/
def renameCols (df : Frame) : Frame :=
  df.map (fun c => (replaceDots c.1, c.2))

/-- Replace the values of the named column (assignment such as
`pdf.ds = ...`). -/
def modifyCol (df : Frame) (name : String) (f : List Value → List Value) : Frame :=
  df.map (fun c => if c.1 == name then (c.1, f c.2) else c)

/-- Read a column of a frame by name. -/
def getCol (df : Frame) (name : String) : Option (List Value) :=
  (df.find? (fun c => c.1 == name)).map Prod.snd

/-- A `models.Database` row. -/
structure DBRecord where
  id : Nat
  database_name : String
  sqlalchemy_uri : String
deriving Repr, DecidableEq

/-- A `models.SqlaTable` row (the dataset-metadata record of the
relational path). -/
structure TableRecord where
  id : Nat
  table_name : String
  main_dttm_col : Option String
  is_featured : Bool
  description : String
  database_id : Nat
deriving Repr, DecidableEq

/-- A `models.Slice` row.  `params` holds the persisted parameter blob
in its dumped (key-sorted) form. -/
structure SliceRecord where
  id : Nat
  slice_name : String
  viz_type : String
  datasource_type : String
  table_id : Option Nat
  es_datasource_id : Option Nat
  params : Dict
deriving Repr

/-- One grid-position descriptor of a dashboard layout blob. -/
structure Pos where
  size_y : Int
  size_x : Int
  col : Int
  row : Int
  slice_id : JValue
deriving Repr

/-- A `models.Dashboard` row.  `slices` holds the ids of the member
slices, `position_json` the persisted layout blob in structured form. -/
structure DashRecord where
  dashboard_title : String
  slug : String
  position_json : List Pos
  slices : List Nat
deriving Repr

/-- A `models.CssTemplate` row. -/
structure CssRecord where
  template_name : String
  css : String
deriving Repr, DecidableEq

/-- The storage state the loaders act on: the metadata tables of the
ORM session plus the relational data tables written via `to_sql`.
`next*Id` model the autoincrement primary-key counters. -/
structure Store where
  dbs : List DBRecord
  tables : List TableRecord
  slices : List SliceRecord
  dashboards : List DashRecord
  cssTemplates : List CssRecord
  sqlTables : List (String × Frame)
  nextDbId : Nat
  nextTableId : Nat
  nextSliceId : Nat
deriving Repr

/-- A fresh, empty storage state. -/
def Store.empty : Store :=
  { dbs := [], tables := [], slices := [], dashboards := [], cssTemplates := [],
    sqlTables := [], nextDbId := 1, nextTableId := 1, nextSliceId := 1 }

/-- Ambient application configuration read through `config.get`. -/
structure Config where
  sqlalchemyUri : String
  rowLimit : JValue

/-- The datasource handle a slice is built against: its `type`, `id`
and `name` attributes as read by `get_or_create_slice`. -/
structure Datasource where
  type : String
  id : Nat
  name : String
deriving Repr, DecidableEq

/-- A `SqlaTable` viewed as a datasource (`type` is `'table'`, `name`
is the table name). -/
def TableRecord.toDatasource (t : TableRecord) : Datasource :=
  { type := "table", id := t.id, name := t.table_name }

/-- Replace the first list element satisfying `p` (ORM update of the
row returned by `.first()`). -/
def replaceFirst {α : Type} (p : α → Bool) (a : α) : List α → List α
  | [] => []
  | x :: xs => if p x then a :: xs else x :: replaceFirst p a xs

/-- `get_or_create_db`: look up the `'main'` database record, create
it if absent, always overwrite its connection URI, commit. -/
def get_or_create_db (cfg : Config) (st : Store) : DBRecord × Store :=
  match st.dbs.find? (fun d => d.database_name == "main") with
  | some dbobj =>
      let dbobj := { dbobj with sqlalchemy_uri := cfg.sqlalchemyUri }
      (dbobj, { st with dbs := replaceFirst (fun d => d.database_name == "main") dbobj st.dbs })
  | none =>
      let dbobj : DBRecord :=
        { id := st.nextDbId, database_name := "main", sqlalchemy_uri := cfg.sqlalchemyUri }
      (dbobj, { st with dbs := st.dbs ++ [dbobj], nextDbId := st.nextDbId + 1 })

/-- `pdf.to_sql(table_name, ..., if_exists='replace', ...)`: drop any
existing relational table of that name and write the frame. -/
def to_sql (table_name : String) (df : Frame) (st : Store) : Store :=
  { st with sqlTables := st.sqlTables.filter (fun e => !(e.1 == table_name)) ++ [(table_name, df)] }

/-- `db.session.merge(t)` on a table record: update the row with the
same primary key in place if present, else insert. -/
def mergeTable (t : TableRecord) (st : Store) : Store :=
  if st.tables.any (fun x => x.id == t.id) then
    { st with tables := replaceFirst (fun x => x.id == t.id) t st.tables }
  else
    { st with tables := st.tables ++ [t] }

/-- The dataset-metadata part of the relational branch of
`import_data` (the `TBL` find-or-create, field assignments,
`merge` and `commit`). -/
def import_table_ref (cfg : Config) (table_name description : String) (st : Store) :
    TableRecord × Store :=
  let existing := st.tables.find? (fun t => t.table_name == table_name)
  let (base, st) :=
    match existing with
    | some t => (t, st)
    | none =>
        ({ id := st.nextTableId, table_name := table_name, main_dttm_col := Option.none,
           is_featured := false, description := "", database_id := 0 : TableRecord },
         { st with nextTableId := st.nextTableId + 1 })
  let ds := { base with is_featured := true }
  let ds :=
    if table_name == "birth_names" then { ds with main_dttm_col := some "ds" }
    else if table_name == "wb_health_population" then { ds with main_dttm_col := some "year" }
    else if table_name == "random_time_series" then
      { ds with main_dttm_col := some "ds", is_featured := false }
    else ds
  let (dbobj, st) := get_or_create_db cfg st
  let ds := { ds with database_id := dbobj.id, description := description }
  (ds, mergeTable ds st)

/-- The relational (`else`) branch of `import_data`: normalize column
names, apply the three hardcoded date-coercion special cases, write
the frame to the relational store, then upsert the dataset-metadata
record. -/
def import_data_rel (cfg : Config) (table_name description : String) (df : Frame)
    (st : Store) : TableRecord × Store :=
  let pdf := renameCols df
  let pdf :=
    if table_name == "birth_names" then modifyCol pdf "ds" (pd_to_datetime TimeUnit.ms)
    else if table_name == "wb_health_population" then
      modifyCol pdf "year" (pd_to_datetime TimeUnit.std)
    else if table_name == "random_time_series" then
      modifyCol pdf "ds" (pd_to_datetime TimeUnit.secs)
    else pdf
  let st := to_sql table_name pdf st
  import_table_ref cfg table_name description st

/-- `get_or_create_slice`: suffix the name with `' (ES)'` for an
elasticsearch datasource, merge defaults, the computed datasource
fields and the overriding params into one dict, delete any existing
slice of the (possibly suffixed) name, and insert a fresh slice whose
persisted blob is the key-sorted dump of the merged dict. -/
def get_or_create_slice (slice_name viz_type : String) (datasource : Datasource)
    (defaults params : Dict) (st : Store) : SliceRecord × Store :=
  let sname :=
    if datasource.type == "elasticsearch" then slice_name ++ " (ES)" else slice_name
  let table_id :=
    if datasource.type == "elasticsearch" then Option.none else some datasource.id
  let es_id :=
    if datasource.type == "elasticsearch" then some datasource.id else Option.none
  let p := defaults
  let p := dictSet p "slice_name" (JValue.s sname)
  let p := dictSet p "viz_type" (JValue.s viz_type)
  let p := dictSet p "datasource_type" (JValue.s datasource.type)
  let p := dictSet p "datasource_id" (JValue.i (datasource.id : Int))
  let p := dictSet p "datasource_name" (JValue.s datasource.name)
  let p := dictUpdate p params
  let remaining := st.slices.eraseP (fun o => o.slice_name == sname)
  let slc : SliceRecord :=
    { id := st.nextSliceId, slice_name := sname, viz_type := viz_type,
      datasource_type := datasource.type, table_id := table_id,
      es_datasource_id := es_id, params := sortByKey p }
  (slc, { st with slices := remaining ++ [slc], nextSliceId := st.nextSliceId + 1 })


/-- `db.session.merge(dash)` after the find-or-create on dashboards:
update the row found by `key` in place, or insert the new row. -/
def upsertDash (key : DashRecord → Bool) (d : DashRecord) (st : Store) : Store :=
  if st.dashboards.any key then
    { st with dashboards := replaceFirst key d st.dashboards }
  else { st with dashboards := st.dashboards ++ [d] }

/-- A layout-position literal, fields in the order they appear in the
embedded JSON layout templates. -/
def mkPos (sy sx c : Int) (sid : JValue) (r : Int) : Pos :=
  { size_y := sy, size_x := sx, col := c, row := r, slice_id := sid }

/-- `for i, pos in enumerate(l): pos['slice_id'] = str(slices[i].id)`:
rewrite each placeholder slice id with the persisted id of the slice
at the same position. -/
def assignSliceIds (l : List Pos) (slices : List SliceRecord) : List Pos :=
  List.zipWith (fun pos slc => { pos with slice_id := JValue.s (toString slc.id) }) l slices

/-- The override params of the `Energy Sankey` slice. -/
def energySankeyParams : Dict :=
  [("collapsed_fieldsets", .s ""), ("flt_col_0", .s "source"), ("flt_eq_0", .s ""),
   ("flt_op_0", .s "in"), ("groupby", .arr [.s "source", .s "target"]),
   ("having", .s ""), ("metric", .s "sum__value"), ("row_limit", .s "5000"),
   ("slice_id", .s ""), ("where", .s "")]

/-- `load_energy` (relational path, `es_cluster=None`): import the
energy table and upsert its three slices. -/
def load_energy (cfg : Config) (df : Frame) (st : Store) : Store :=
  let (ds, st) := import_data_rel cfg "energy_usage" "Energy consumption" df st
  let (_, st) := get_or_create_slice "Energy Sankey" "sankey" ds.toDatasource []
    energySankeyParams st
  let (_, st) := get_or_create_slice "Energy Force Layout" "directed_force" ds.toDatasource []
    [("charge", .s "-500"), ("collapsed_fieldsets", .s ""), ("flt_col_0", .s "source"),
     ("flt_eq_0", .s ""), ("flt_op_0", .s "in"),
     ("groupby", .arr [.s "source", .s "target"]), ("having", .s ""),
     ("link_length", .s "200"), ("metric", .s "sum__value"), ("row_limit", .s "5000"),
     ("where", .s "")] st
  let (_, st) := get_or_create_slice "Heatmap" "heatmap" ds.toDatasource []
    [("all_columns_x", .s "source"), ("all_columns_y", .s "target"),
     ("canvas_image_rendering", .s "pixelated"), ("collapsed_fieldsets", .s ""),
     ("flt_col_0", .s "source"), ("flt_eq_0", .s ""), ("flt_op_0", .s "in"),
     ("having", .s ""), ("linear_color_scheme", .s "blue_white_yellow"),
     ("metric", .s "sum__value"), ("normalize_across", .s "heatmap"), ("where", .s ""),
     ("xscale_interval", .s "1"), ("yscale_interval", .s "1")] st
  st

/-- The embedded world-bank dashboard layout template, with its
placeholder slice ids. -/
def worldBankLayout : List Pos :=
  [mkPos 2 3 10 (.s "22") 1, mkPos 3 3 10 (.s "23") 3, mkPos 8 3 1 (.s "24") 1,
   mkPos 3 6 4 (.s "25") 6, mkPos 5 6 4 (.s "26") 1, mkPos 4 6 7 (.s "27") 9,
   mkPos 3 3 10 (.s "28") 6, mkPos 4 6 1 (.s "29") 9, mkPos 4 5 8 (.s "30") 13,
   mkPos 4 7 1 (.s "31") 13]

/-- `load_world_bank_health_n_pop` (relational path): import the
world-bank table, upsert its eleven slices, and upsert the
`world_health` dashboard over all but the last slice.  The
`description` parameter stands for the text read from the bundled
`countries.md` file. -/
def load_world_bank_health_n_pop (cfg : Config) (description : String) (df : Frame)
    (st : Store) : Store :=
  let (ds, st) := import_data_rel cfg "wb_health_population" description df st
  let defaults : Dict :=
    [("compare_lag", .s "10"), ("compare_suffix", .s "o10Y"), ("limit", .s "25"),
     ("granularity", .s "year"), ("groupby", .arr []), ("metric", .s "sum__SP_POP_TOTL"),
     ("metrics", .arr [.s "sum__SP_POP_TOTL"]), ("row_limit", cfg.rowLimit),
     ("since", .s "2014-01-01"), ("until", .s "2014-01-01"), ("where", .s ""),
     ("markup_type", .s "markdown"), ("country_fieldtype", .s "cca3"),
     ("secondary_metric", .s "sum__SP_POP_TOTL"), ("entity", .s "country_code"),
     ("show_bubbles", .s "y")]
  let dsrc := ds.toDatasource
  let (s1, st) := get_or_create_slice "Region Filter" "filter_box" dsrc defaults
    [("groupby", .arr [.s "region", .s "country_name"])] st
  let (s2, st) := get_or_create_slice "World\x27s Population" "big_number" dsrc defaults
    [("since", .s "2000"), ("compare_lag", .s "10"), ("metric", .s "sum__SP_POP_TOTL"),
     ("compare_suffix", .s "over 10Y")] st
  let (s3, st) := get_or_create_slice "Most Populated Countries" "table" dsrc defaults
    [("metrics", .arr [.s "sum__SP_POP_TOTL"]), ("groupby", .arr [.s "country_name"])] st
  let (s4, st) := get_or_create_slice "Growth Rate" "line" dsrc defaults
    [("since", .s "1960-01-01"), ("metrics", .arr [.s "sum__SP_POP_TOTL"]),
     ("num_period_compare", .s "10"), ("groupby", .arr [.s "country_name"])] st
  let (s5, st) := get_or_create_slice "% Rural" "world_map" dsrc defaults
    [("metric", .s "sum__SP_RUR_TOTL_ZS"), ("num_period_compare", .s "10")] st
  let (s6, st) := get_or_create_slice "Life Expexctancy VS Rural %" "bubble" dsrc defaults
    [("since", .s "2011-01-01"), ("until", .s "2011-01-01"), ("series", .s "region"),
     ("limit", .s "0"), ("entity", .s "country_name"), ("x", .s "sum__SP_RUR_TOTL_ZS"),
     ("y", .s "sum__SP_DYN_LE00_IN"), ("size", .s "sum__SP_POP_TOTL"),
     ("max_bubble_size", .s "50"), ("flt_col_1", .s "country_code"),
     ("flt_op_1", .s "not in"),
     ("flt_eq_1", .s "TCA,MNP,DMA,MHL,MCO,SXM,CYM,TUV,IMY,KNA,ASM,ADO,AMA,PLW"),
     ("num_period_compare", .s "10")] st
  let (s7, st) := get_or_create_slice "Rural Breakdown" "sunburst" dsrc defaults
    [("groupby", .arr [.s "region", .s "country_name"]),
     ("secondary_metric", .s "sum__SP_RUR_TOTL"), ("since", .s "2011-01-01"),
     ("until", .s "2011-01-01")] st
  let (s8, st) := get_or_create_slice "World\x27s Pop Growth" "area" dsrc defaults
    [("since", .s "1960-01-01"), ("until", .s "now"), ("groupby", .arr [.s "region"])] st
  let (s9, st) := get_or_create_slice "Box plot" "box_plot" dsrc defaults
    [("since", .s "1960-01-01"), ("until", .s "now"), ("whisker_options", .s "Tukey"),
     ("groupby", .arr [.s "region"])] st
  let (s10, st) := get_or_create_slice "Treemap" "treemap" dsrc defaults
    [("since", .s "1960-01-01"), ("until", .s "now"),
     ("metrics", .arr [.s "sum__SP_POP_TOTL"]),
     ("groupby", .arr [.s "region", .s "country_code"])] st
  let (s11, st) := get_or_create_slice "Parallel Coordinates" "para" dsrc defaults
    [("since", .s "2011-01-01"), ("until", .s "2011-01-01"), ("limit", .i 100),
     ("metrics", .arr [.s "sum__SP_POP_TOTL", .s "sum__SP_RUR_TOTL_ZS",
       .s "sum__SH_DYN_AIDS"]),
     ("secondary_metric", .s "sum__SP_POP_TOTL"),
     ("series", .arr [.s "country_name"])] st
  let slices := [s1, s2, s3, s4, s5, s6, s7, s8, s9, s10, s11]
  let l := assignSliceIds worldBankLayout slices
  let newDash : DashRecord :=
    { dashboard_title := "World\x27s Bank Data", slug := "world_health",
      position_json := l, slices := (slices.dropLast).map (fun s => s.id) }
  upsertDash (fun d => d.slug == "world_health") newDash st

/-- The dedented CSS body of the `Flat` template. -/
def flatCss : String :=
  ".gridster div.widget \x7b\n    transition: background-color 0.5s ease;\n    background-color: #FAFAFA;\n    border: 1px solid #CCC;\n    box-shadow: none;\n    border-radius: 0px;\n\x7d\n.gridster div.widget:hover \x7b\n    border: 1px solid #000;\n    background-color: #EAEAEA;\n\x7d\n.navbar \x7b\n    transition: opacity 0.5s ease;\n    opacity: 0.05;\n\x7d\n.navbar:hover \x7b\n    opacity: 1;\n\x7d\n.chart-header .header\x7b\n    font-weight: normal;\n    font-size: 12px;\n\x7d\n/*\nvar bnbColors = [\n    //rausch    hackb      kazan      babu      lima        beach     tirol\n    \x27#ff5a5f\x27, \x27#7b0051\x27, \x27#007A87\x27, \x27#00d1c1\x27, \x27#8ce071\x27, \x27#ffb400\x27, \x27#b4a76c\x27,\n    \x27#ff8083\x27, \x27#cc0086\x27, \x27#00a1b3\x27, \x27#00ffeb\x27, \x27#bbedab\x27, \x27#ffd266\x27, \x27#cbc29a\x27,\n    \x27#ff3339\x27, \x27#ff1ab1\x27, \x27#005c66\x27, \x27#00b3a5\x27, \x27#55d12e\x27, \x27#b37e00\x27, \x27#988b4e\x27,\n ];\n*/\n"

/-- The dedented CSS body of the `Courier Black` template. -/
def courierBlackCss : String :=
  ".gridster div.widget \x7b\n    transition: background-color 0.5s ease;\n    background-color: #EEE;\n    border: 2px solid #444;\n    border-radius: 15px;\n    box-shadow: none;\n\x7d\nh2 \x7b\n    color: white;\n    font-size: 52px;\n\x7d\n.navbar \x7b\n    box-shadow: none;\n\x7d\n.gridster div.widget:hover \x7b\n    border: 2px solid #000;\n    background-color: #EAEAEA;\n\x7d\n.navbar \x7b\n    transition: opacity 0.5s ease;\n    opacity: 0.05;\n\x7d\n.navbar:hover \x7b\n    opacity: 1;\n\x7d\n.chart-header .header\x7b\n    font-weight: normal;\n    font-size: 12px;\n\x7d\n.nvd3 text \x7b\n    font-size: 12px;\n    font-family: inherit;\n\x7d\nbody\x7b\n    background: #000;\n    font-family: Courier, Monaco, monospace;;\n\x7d\n/*\nvar bnbColors = [\n    //rausch    hackb      kazan      babu      lima        beach     tirol\n    \x27#ff5a5f\x27, \x27#7b0051\x27, \x27#007A87\x27, \x27#00d1c1\x27, \x27#8ce071\x27, \x27#ffb400\x27, \x27#b4a76c\x27,\n    \x27#ff8083\x27, \x27#cc0086\x27, \x27#00a1b3\x27, \x27#00ffeb\x27, \x27#bbedab\x27, \x27#ffd266\x27, \x27#cbc29a\x27,\n    \x27#ff3339\x27, \x27#ff1ab1\x27, \x27#005c66\x27, \x27#00b3a5\x27, \x27#55d12e\x27, \x27#b37e00\x27, \x27#988b4e\x27,\n ];\n*/\n"

/-- Upsert one CSS-template row keyed by its template name. -/
def upsertCss (name body : String) (st : Store) : Store :=
  let row : CssRecord := { template_name := name, css := body }
  if st.cssTemplates.any (fun c => c.template_name == name) then
    { st with cssTemplates := replaceFirst (fun c => c.template_name == name) row st.cssTemplates }
  else { st with cssTemplates := st.cssTemplates ++ [row] }

/-- `load_css_templates`: upsert the `Flat` and `Courier Black` CSS
template rows. -/
def load_css_templates (st : Store) : Store :=
  let st := upsertCss "Flat" flatCss st
  upsertCss "Courier Black" courierBlackCss st

/-- The markup body of the birth-names `Title` slice. -/
def birthTitleCode : String :=
  "<div style=\"text-align:center\">\n    <h1>Birth Names Dashboard</h1>\n    <p>\n        The source dataset came from\n        <a href=\"https://github.com/hadley/babynames\">[here]</a>\n    </p>\n    <img src=\"http://monblog.system-linux.net/image/tux/baby-tux_overlord59-tux.png\">\n</div>\n"

/-- The embedded birth-names dashboard layout template, with its
placeholder slice ids. -/
def birthNamesLayout : List Pos :=
  [mkPos 4 2 8 (.s "85") 7, mkPos 4 2 10 (.s "86") 7, mkPos 2 2 1 (.s "87") 1,
   mkPos 2 2 3 (.s "88") 1, mkPos 3 7 5 (.s "89") 4, mkPos 4 7 1 (.s "90") 7,
   mkPos 3 3 9 (.s "91") 1, mkPos 3 4 5 (.s "92") 1, mkPos 4 4 1 (.s "93") 3]

/-- `load_birth_names` (relational path): import the birth-names
table, upsert its ten slices, and upsert the `Births` dashboard over
all but the last slice. -/
def load_birth_names (cfg : Config) (df : Frame) (st : Store) : Store :=
  let (ds, st) := import_data_rel cfg "birth_names" "" df st
  let defaults : Dict :=
    [("compare_lag", .s "10"), ("compare_suffix", .s "o10Y"), ("flt_op_1", .s "in"),
     ("limit", .s "25"), ("granularity", .s "ds"), ("groupby", .arr []),
     ("metric", .s "sum__num"), ("metrics", .arr [.s "sum__num"]),
     ("row_limit", cfg.rowLimit), ("since", .s "100 years ago"), ("until", .s "now"),
     ("where", .s ""), ("markup_type", .s "markdown")]
  let dsrc := ds.toDatasource
  let (s1, st) := get_or_create_slice "Girls" "table" dsrc defaults
    [("groupby", .arr [.s "name"]), ("flt_col_1", .s "gender"), ("flt_eq_1", .s "girl"),
     ("row_limit", .i 50)] st
  let (s2, st) := get_or_create_slice "Boys" "table" dsrc defaults
    [("groupby", .arr [.s "name"]), ("flt_col_1", .s "gender"), ("flt_eq_1", .s "boy"),
     ("row_limit", .i 50)] st
  let (s3, st) := get_or_create_slice "Participants" "big_number" dsrc defaults
    [("granularity", .s "ds"), ("compare_lag", .s "5"), ("compare_suffix", .s "over 5Y")] st
  let (s4, st) := get_or_create_slice "Genders" "pie" dsrc defaults
    [("groupby", .arr [.s "gender"])] st
  let (s5, st) := get_or_create_slice "Genders by State" "dist_bar" dsrc defaults
    [("flt_eq_1", .s "other"), ("metrics", .arr [.s "sum__sum_girls", .s "sum__sum_boys"]),
     ("groupby", .arr [.s "state"]), ("flt_op_1", .s "not in"), ("flt_col_1", .s "state")] st
  let (s6, st) := get_or_create_slice "Trends" "line" dsrc defaults
    [("groupby", .arr [.s "name"]), ("granularity", .s "ds"), ("rich_tooltip", .s "y"),
     ("show_legend", .s "y")] st
  let (s7, st) := get_or_create_slice "Title" "markup" dsrc defaults
    [("markup_type", .s "html"), ("code", .s birthTitleCode)] st
  let (s8, st) := get_or_create_slice "Name Cloud" "word_cloud" dsrc defaults
    [("size_from", .s "10"), ("series", .s "name"), ("size_to", .s "70"),
     ("rotation", .s "square"), ("limit", .s "100")] st
  let (s9, st) := get_or_create_slice "Pivot Table" "pivot_table" dsrc defaults
    [("metrics", .arr [.s "sum__num"]), ("groupby", .arr [.s "name"]),
     ("columns", .arr [.s "state"])] st
  let (s10, st) := get_or_create_slice "Number of Girls" "big_number_total" dsrc defaults
    [("granularity", .s "ds"), ("flt_col_1", .s "gender"), ("flt_eq_1", .s "girl"),
     ("subheader", .s "total female participants")] st
  let slices := [s1, s2, s3, s4, s5, s6, s7, s8, s9, s10]
  let l := assignSliceIds birthNamesLayout slices
  let newDash : DashRecord :=
    { dashboard_title := "Births", slug := "births",
      position_json := l, slices := (slices.dropLast).map (fun s => s.id) }
  upsertDash (fun d => d.dashboard_title == "Births") newDash st

/-- The number of rows of a frame (`len(df)`). -/
def nRows (df : Frame) : Nat :=
  (df.head?.map (fun c => c.2.length)).getD 0

/-- Set a whole column of a frame (`df['date'] = ...`), creating the
column if absent. -/
def setCol (df : Frame) (name : String) (colvals : List Value) : Frame :=
  if df.any (fun c => c.1 == name) then
    df.map (fun c => if c.1 == name then (name, colvals) else c)
  else df ++ [(name, colvals)]

/-- `load_unicode_test_data`: write the unicode CSV (with a generated
`date` column, all cells `today`, and a generated random `value`
column, modelled by the oracle `vals`), upsert its table reference,
one slice, and the `Unicode Test` dashboard. -/
def load_unicode_test_data (cfg : Config) (df : Frame) (today : Value)
    (vals : List Value) (st : Store) : Store :=
  let df := setCol df "date" (List.replicate (nRows df) today)
  let df := setCol df "value" vals
  let st := to_sql "unicode_test" df st
  let existing := st.tables.find? (fun t => t.table_name == "unicode_test")
  let (base, st) :=
    match existing with
    | some t => (t, st)
    | none =>
        ({ id := st.nextTableId, table_name := "unicode_test", main_dttm_col := Option.none,
           is_featured := false, description := "", database_id := 0 : TableRecord },
         { st with nextTableId := st.nextTableId + 1 })
  let (dbobj, st) := get_or_create_db cfg st
  let obj := { base with main_dttm_col := some "date", database_id := dbobj.id, is_featured := false }
  let st := mergeTable obj st
  let ds := obj
  let slice_data : Dict :=
    [("flt_op_1", .s "in"), ("granularity", .s "date"), ("groupby", .arr []),
     ("metric", .s "sum__value"), ("row_limit", cfg.rowLimit),
     ("since", .s "100 years ago"), ("until", .s "now"), ("where", .s ""),
     ("viz_type", .s "word_cloud"), ("size_from", .s "10"),
     ("series", .s "short_phrase"), ("size_to", .s "70"), ("rotation", .s "square"),
     ("limit", .s "100")]
  let (slc, st) := get_or_create_slice "Unicode Cloud" "word_cloud" ds.toDatasource
    [] slice_data st
  let pos : Pos :=
    { size_y := 4, size_x := 4, col := 1, row := 1, slice_id := JValue.i (slc.id : Int) }
  let newDash : DashRecord :=
    { dashboard_title := "Unicode Test", slug := "unicode-test",
      position_json := [pos], slices := [slc.id] }
  upsertDash (fun d => d.dashboard_title == "Unicode Test") newDash st

/-- `load_random_time_series_data` (relational path): import the
random-time-series table and upsert its single slice. -/
def load_random_time_series_data (cfg : Config) (df : Frame) (st : Store) : Store :=
  let (ds, st) := import_data_rel cfg "random_time_series" "Random time series" df st
  let (_, st) := get_or_create_slice "Calendar Heatmap" "cal_heatmap" ds.toDatasource []
    [("granularity", .s "day"), ("row_limit", cfg.rowLimit), ("since", .s "1 year ago"),
     ("until", .s "now"), ("where", .s ""), ("domain_granularity", .s "month"),
     ("subdomain_granularity", .s "day")] st
  st

/-! Checkers used by the verification statements. -/

/-- Boolean duplicate-freedom of a list of names. -/
def nodupB : List String → Bool
  | [] => true
  | x :: xs => !(xs.contains x) && nodupB xs

/-- No two records of any metadata table share their lookup key:
one database per name, one table per name, one slice per name, one
dashboard per slug and per title, one CSS template per name. -/
def uniqueKeysOK (st : Store) : Bool :=
  nodupB (st.dbs.map (fun d => d.database_name)) &&
  nodupB (st.tables.map (fun t => t.table_name)) &&
  nodupB (st.slices.map (fun s => s.slice_name)) &&
  nodupB (st.dashboards.map (fun d => d.slug)) &&
  nodupB (st.dashboards.map (fun d => d.dashboard_title)) &&
  nodupB (st.cssTemplates.map (fun c => c.template_name))

/-- Does a layout slot hold the given persisted slice id (stored as
`str(id)` by the layout loops, or as the raw id by the unicode
loader)? -/
def slotRefs (p : Pos) (sid : Nat) : Bool :=
  match p.slice_id with
  | .s w => w == toString sid
  | .i n => n == (sid : Int)
  | .arr _ => false

/-- The layout blob of a dashboard has at least one slot per member
slice, and each member slice id sits in exactly one slot. -/
def dashLayoutOK (d : DashRecord) : Bool :=
  Nat.ble d.slices.length d.position_json.length &&
  d.slices.all (fun sid => d.position_json.countP (fun p => slotRefs p sid) == 1)

/-- Does the blob hold the given string value under the given key? -/
def paramIsStr (d : Dict) (k v : String) : Bool :=
  match dictGet d k with
  | some (.s w) => w == v
  | _ => false

/-- Read a written relational table back from the store. -/
def getSql (st : Store) (name : String) : Option Frame :=
  (st.sqlTables.find? (fun e => e.1 == name)).map Prod.snd

/-- The five keys `get_or_create_slice` always writes into the
parameter dict between copying the defaults and applying the
overrides. -/
def injectedKeys : List String :=
  ["slice_name", "viz_type", "datasource_type", "datasource_id", "datasource_name"]

/-! Fault-injection model of `import_data`, for the error-handling
claim.  Each external call of the function may be told to fail with an
error code; the embedding reproduces the handling the code gives each
call: `es.indices.delete(..., ignore=404)` swallows exactly a 404
("index does not exist"), everything else re-raises. -/

/-- The injectable failures of the search-cluster branch of
`import_data`, in call order: gzip/JSON read, index pre-delete, bulk
indexing, datasource upsert commit, `refresh_fields`,
`generate_metrics`. -/
structure EsFaults where
  read_fault : Option Nat
  delete_fault : Option Nat
  bulk_fault : Option Nat
  commit_fault : Option Nat
  refresh_fault : Option Nat
  metrics_fault : Option Nat

/-- The injectable failures of the relational branch of
`import_data`, in call order: gzip/JSON read, `to_sql` write,
metadata upsert commit, `fetch_metadata`. -/
structure RelFaults where
  read_fault : Option Nat
  write_fault : Option Nat
  commit_fault : Option Nat
  fetch_fault : Option Nat

/-- An unguarded external call: any injected failure propagates. -/
def plainStep (f : Option Nat) : Except Nat Unit :=
  match f with
  | some e => Except.error e
  | none => Except.ok ()

/-- The `es.indices.delete(index=..., ignore=404)` call: a 404
("index does not exist") is swallowed, any other failure propagates. -/
def deleteStep (f : Option Nat) : Except Nat Unit :=
  match f with
  | some e => if e = 404 then Except.ok () else Except.error e
  | none => Except.ok ()

/-- The search-cluster branch of `import_data` under fault
injection. -/
def import_data_es_run (fl : EsFaults) : Except Nat Unit :=
  (plainStep fl.read_fault).bind fun _ =>
  (deleteStep fl.delete_fault).bind fun _ =>
  (plainStep fl.bulk_fault).bind fun _ =>
  (plainStep fl.commit_fault).bind fun _ =>
  (plainStep fl.refresh_fault).bind fun _ =>
  plainStep fl.metrics_fault

/-- The relational branch of `import_data` under fault injection. -/
def import_data_rel_run (fl : RelFaults) : Except Nat Unit :=
  (plainStep fl.read_fault).bind fun _ =>
  (plainStep fl.write_fault).bind fun _ =>
  (plainStep fl.commit_fault).bind fun _ =>
  plainStep fl.fetch_fault

/-! Concrete sample inputs used by the closed counterexample and
witness statements. -/

/-- A concrete application configuration. -/
def sampleCfg : Config := { sqlalchemyUri := "sqlite:///caravel.db", rowLimit := .i 50000 }

/-- A one-row birth-names input frame. -/
def sampleBirthFrame : Frame :=
  [("ds", [.int 0]), ("gender", [.str "girl"]), ("name", [.str "Ada"]),
   ("state", [.str "CA"]), ("num", [.int 1])]

/-- A one-row world-bank input frame. -/
def sampleWorldBankFrame : Frame :=
  [("year", [.int 1960]), ("country_code", [.str "USA"]),
   ("country_name", [.str "United States"]), ("region", [.str "NA"])]

/-- A one-row energy input frame. -/
def sampleEnergyFrame : Frame :=
  [("source", [.str "coal"]), ("target", [.str "grid"]), ("value", [.int 1])]

/-- The datasource handle of a freshly imported relational
energy-usage table. -/
def sampleEnergyDatasource : Datasource :=
  { type := "table", id := 1, name := "energy_usage" }

/-- A sample elasticsearch datasource handle. -/
def sampleEsDatasource : Datasource :=
  { type := "elasticsearch", id := 3, name := "example-birth_names" }

/-- A store already holding a relational `Girls` slice and its
search-cluster `Girls (ES)` counterpart. -/
def sampleEsStore : Store :=
  { Store.empty with nextSliceId := 3, slices :=
      [{ id := 1, slice_name := "Girls", viz_type := "table", datasource_type := "table",
         table_id := some 1, es_datasource_id := Option.none, params := [] },
       { id := 2, slice_name := "Girls (ES)", viz_type := "table",
         datasource_type := "elasticsearch", table_id := Option.none,
         es_datasource_id := some 3, params := [] }] }


/-- A one-row unicode-test input frame (the parsed CSV). -/
def sampleUnicodeFrame : Frame :=
  [("phrase", [.str "phrase"]), ("short_phrase", [.str "sp"]),
   ("with_missing", [.str ""])]

/-- A one-row random-time-series input frame. -/
def sampleRandomFrame : Frame := [("ds", [.int 0])]

/-- A sample value of `datetime.datetime.now().date()`. -/
def sampleToday : Value := .str "2016-06-01"

/-- A sample draw of the random `value` column. -/
def sampleVals : List Value := [.int 42]

/-- A sample text of the bundled `countries.md` description file. -/
def sampleWorldBankDescription : String := "Health and population statistics"

/-!  ## Theorems settling the claims  -/

/-- C1 (counterexample): at a concrete run of `load_birth_names` on a
fresh store, the loader does not create 9 slices with 8 of them on the
dashboard: it creates 10 slices and puts 9 on the dashboard. -/
theorem birth_names_dashboard_counterexample :
    ¬ ((load_birth_names sampleCfg sampleBirthFrame Store.empty).slices.length = 9
       ∧ (load_birth_names sampleCfg sampleBirthFrame Store.empty).dashboards.map
           (fun d => d.slices.length) = [8]) := by
  decide

/-- C1 (amended): running `load_birth_names` on a fresh store creates
ten slices (ids 1-10, the last named `Number of Girls`) and one
dashboard with slug `births` whose membership is the first nine slice
ids, so the `Number of Girls` slice is the one excluded. -/
theorem birth_names_dashboard_nine_of_ten :
    (let st := load_birth_names sampleCfg sampleBirthFrame Store.empty
     st.slices.map (fun s => (s.id, s.slice_name)) =
       [(1, "Girls"), (2, "Boys"), (3, "Participants"), (4, "Genders"),
        (5, "Genders by State"), (6, "Trends"), (7, "Title"), (8, "Name Cloud"),
        (9, "Pivot Table"), (10, "Number of Girls")]
     ∧ st.dashboards.map (fun d => (d.dashboard_title, d.slug, d.slices)) =
        [("Births", "births", [1, 2, 3, 4, 5, 6, 7, 8, 9])]) := by
  decide

/-- C4: running `load_energy` twice on a fresh store leaves exactly
the three slices `Energy Sankey`, `Energy Force Layout`, `Heatmap`
(not six), each with `"metric": "sum__value"` in its persisted
parameter blob. -/
theorem load_energy_twice_three_slices :
    (let st2 := load_energy sampleCfg sampleEnergyFrame
       (load_energy sampleCfg sampleEnergyFrame Store.empty)
     st2.slices.map (fun s => s.slice_name) =
       ["Energy Sankey", "Energy Force Layout", "Heatmap"]
     ∧ st2.slices.all (fun s => paramIsStr s.params "metric" "sum__value") = true) := by
  decide

/-- C6: after running every loader once on a fresh store, each of the
three dashboards they create has at least one layout slot per member
slice, and each member slice id sits in exactly one slot. -/
theorem dashboards_layout_covers_members :
    (let st := load_random_time_series_data sampleCfg sampleRandomFrame
       (load_unicode_test_data sampleCfg sampleUnicodeFrame sampleToday sampleVals
         (load_birth_names sampleCfg sampleBirthFrame
           (load_css_templates
             (load_world_bank_health_n_pop sampleCfg sampleWorldBankDescription
               sampleWorldBankFrame
               (load_energy sampleCfg sampleEnergyFrame Store.empty)))))
     st.dashboards.length = 3 ∧ st.dashboards.all dashLayoutOK = true) := by
  decide

/-- C7 (counterexample): at a concrete run of `load_birth_names` on a
fresh store the last created slice has id 10, and no slot of the
persisted layout blob holds it, refuting the claim that the excluded
slice still occupies a layout slot. -/
theorem last_slice_layout_counterexample :
    ¬ ((load_birth_names sampleCfg sampleBirthFrame Store.empty).dashboards.any
        (fun d => d.position_json.any (fun p => slotRefs p 10)) = true) := by
  decide

/-- C7 (amended): in the two loaders that drop their last slice
(`load_birth_names` and `load_world_bank_health_n_pop`), the last
created slice is excluded from the dashboard membership and its id
appears in no layout slot: the layout has exactly one slot per member
slice. -/
theorem last_slice_excluded_everywhere :
    (let stB := load_birth_names sampleCfg sampleBirthFrame Store.empty
     let stW := load_world_bank_health_n_pop sampleCfg sampleWorldBankDescription
       sampleWorldBankFrame Store.empty
     ((stB.slices.map (fun s => s.id)).getLast? = some 10
      ∧ stB.dashboards.map (fun d => d.slices) = [[1, 2, 3, 4, 5, 6, 7, 8, 9]]
      ∧ stB.dashboards.all (fun d => !(d.position_json.any (fun p => slotRefs p 10))) = true
      ∧ stB.dashboards.map (fun d => d.position_json.length) = [9])
     ∧ ((stW.slices.map (fun s => s.id)).getLast? = some 11
      ∧ stW.dashboards.map (fun d => d.slices) = [[1, 2, 3, 4, 5, 6, 7, 8, 9, 10]]
      ∧ stW.dashboards.all (fun d => !(d.position_json.any (fun p => slotRefs p 11))) = true
      ∧ stW.dashboards.map (fun d => d.position_json.length) = [10])) := by
  decide

/-- C3: running each loader twice against the same (initially empty)
storage leaves no duplicate record for any lookup key (database name,
table name, slice name, dashboard slug and title, CSS template name);
every slice in the final store carries an id allocated during the
second run (the second run's records replace the first's), and the
dashboards reference exactly those second-run slice ids in their
layouts. -/
theorem loaders_idempotent_second_run :
    (let st1 := load_energy sampleCfg sampleEnergyFrame Store.empty
     let st2 := load_energy sampleCfg sampleEnergyFrame st1
     uniqueKeysOK st2 = true
     ∧ st2.slices.all (fun s => Nat.ble st1.nextSliceId s.id) = true)
    ∧ (let st1 := load_world_bank_health_n_pop sampleCfg sampleWorldBankDescription
         sampleWorldBankFrame Store.empty
       let st2 := load_world_bank_health_n_pop sampleCfg sampleWorldBankDescription
         sampleWorldBankFrame st1
       uniqueKeysOK st2 = true
       ∧ st2.slices.all (fun s => Nat.ble st1.nextSliceId s.id) = true
       ∧ st2.dashboards.all dashLayoutOK = true)
    ∧ (let st2 := load_css_templates (load_css_templates Store.empty)
       uniqueKeysOK st2 = true)
    ∧ (let st1 := load_birth_names sampleCfg sampleBirthFrame Store.empty
       let st2 := load_birth_names sampleCfg sampleBirthFrame st1
       uniqueKeysOK st2 = true
       ∧ st2.slices.all (fun s => Nat.ble st1.nextSliceId s.id) = true
       ∧ st2.dashboards.all dashLayoutOK = true)
    ∧ (let st1 := load_unicode_test_data sampleCfg sampleUnicodeFrame sampleToday
         sampleVals Store.empty
       let st2 := load_unicode_test_data sampleCfg sampleUnicodeFrame sampleToday
         sampleVals st1
       uniqueKeysOK st2 = true
       ∧ st2.slices.all (fun s => Nat.ble st1.nextSliceId s.id) = true
       ∧ st2.dashboards.all dashLayoutOK = true)
    ∧ (let st1 := load_random_time_series_data sampleCfg sampleRandomFrame Store.empty
       let st2 := load_random_time_series_data sampleCfg sampleRandomFrame st1
       uniqueKeysOK st2 = true
       ∧ st2.slices.all (fun s => Nat.ble st1.nextSliceId s.id) = true) := by
  decide


/-- C8: in the fault-injection model of `import_data`, the run
succeeds iff no step was told to fail, except that the index
pre-delete step may fail with a 404 ("index does not exist"), which is
the only suppressed failure; every failure of any other step (and any
non-404 failure of the delete step) makes the run fail. -/
theorem only_index_delete_404_suppressed (fe : EsFaults) (fr : RelFaults) :
    (import_data_es_run fe = Except.ok () ↔
      (fe.read_fault = none
        ∧ (fe.delete_fault = none ∨ fe.delete_fault = some 404)
        ∧ fe.bulk_fault = none ∧ fe.commit_fault = none
        ∧ fe.refresh_fault = none ∧ fe.metrics_fault = none))
    ∧ (import_data_rel_run fr = Except.ok () ↔
      (fr.read_fault = none ∧ fr.write_fault = none
        ∧ fr.commit_fault = none ∧ fr.fetch_fault = none)) := by
  obtain ⟨r, d, b, c, rf, m⟩ := fe
  obtain ⟨r2, w2, c2, f2⟩ := fr
  constructor
  · cases r <;> cases d <;> cases b <;> cases c <;> cases rf <;> cases m <;>
      simp [import_data_es_run, plainStep, deleteStep, Except.bind] <;>
      split_ifs <;> simp_all
  · cases r2 <;> cases w2 <;> cases c2 <;> cases f2 <;>
      simp [import_data_rel_run, plainStep, Except.bind]


/-! Dictionary lemmas supporting the parameter-blob claims. -/

theorem contains_iff_mem (l : List String) (a : String) :
    l.contains a = true ↔ a ∈ l := by
  simp

theorem dictKeys_cons (x : String × JValue) (d : Dict) :
    dictKeys (x :: d) = x.1 :: dictKeys d := rfl

theorem dictGet_cons (x : String × JValue) (d : Dict) (a : String) :
    dictGet (x :: d) a = if x.1 = a then some x.2 else dictGet d a := by
  by_cases h : x.1 = a <;> simp [dictGet, List.find?_cons, h]

theorem dictKeys_map_overwrite (d : Dict) (k : String) (v : JValue) :
    dictKeys (d.map (fun kv => if kv.1 == k then (k, v) else kv)) = dictKeys d := by
  unfold dictKeys
  rw [List.map_map]
  apply List.map_congr_left
  intro kv _
  by_cases hx : kv.1 = k <;> simp [hx]

theorem mem_dictKeys_dictSet (d : Dict) (k a : String) (v : JValue) :
    a ∈ dictKeys (dictSet d k v) ↔ a = k ∨ a ∈ dictKeys d := by
  unfold dictSet
  split
  · next h =>
    rw [dictKeys_map_overwrite]
    constructor
    · exact Or.inr
    · rintro (rfl | ha)
      · exact (contains_iff_mem _ _).mp h
      · exact ha
  · simp [dictKeys, or_comm]

theorem nodup_dictKeys_dictSet (d : Dict) (k : String) (v : JValue)
    (h : (dictKeys d).Nodup) : (dictKeys (dictSet d k v)).Nodup := by
  unfold dictSet
  split
  · next hc => rwa [dictKeys_map_overwrite]
  · next hc =>
    have hk : k ∉ dictKeys d := fun hm => hc ((contains_iff_mem _ _).mpr hm)
    unfold dictKeys at h hk ⊢
    simp [List.nodup_append, h, hk]

theorem dictGet_map_overwrite_ne (d : Dict) (k a : String) (v : JValue) (hak : a ≠ k) :
    dictGet (d.map (fun kv => if kv.1 == k then (k, v) else kv)) a = dictGet d a := by
  induction d with
  | nil => rfl
  | cons x xs ih =>
    rw [List.map_cons, dictGet_cons, dictGet_cons]
    by_cases hx : x.1 = k
    · have h1 : ((if x.1 == k then (k, v) else x) : String × JValue).1 = k := by simp [hx]
      rw [h1, if_neg (fun he => hak he.symm), if_neg (fun he => hak (hx ▸ he).symm), ih]
    · have h1 : ((if x.1 == k then (k, v) else x) : String × JValue) = x := by simp [hx]
      rw [h1, ih]

theorem dictGet_map_overwrite_self (d : Dict) (k : String) (v : JValue)
    (h : k ∈ dictKeys d) :
    dictGet (d.map (fun kv => if kv.1 == k then (k, v) else kv)) k = some v := by
  induction d with
  | nil => cases h
  | cons x xs ih =>
    rw [List.map_cons, dictGet_cons]
    by_cases hx : x.1 = k
    · have h1 : ((if x.1 == k then (k, v) else x) : String × JValue) = (k, v) := by simp [hx]
      rw [h1]
      simp
    · have h1 : ((if x.1 == k then (k, v) else x) : String × JValue) = x := by simp [hx]
      rw [h1, if_neg hx]
      have h2 : k ∈ dictKeys xs := by
        rcases List.mem_cons.mp h with h3 | h3
        · exact absurd h3.symm hx
        · exact h3
      exact ih h2

theorem dictGet_append_not_mem (d e : Dict) (a : String) (h : a ∉ dictKeys d) :
    dictGet (d ++ e) a = dictGet e a := by
  induction d with
  | nil => rfl
  | cons x xs ih =>
    have hx : x.1 ≠ a := fun he => h (he ▸ List.mem_cons_self _ _)
    have h2 : a ∉ dictKeys xs := fun hm => h (List.mem_cons_of_mem _ hm)
    rw [List.cons_append, dictGet_cons, if_neg hx]
    exact ih h2

theorem dictGet_append_mem (d e : Dict) (a : String) (h : a ∈ dictKeys d) :
    dictGet (d ++ e) a = dictGet d a := by
  induction d with
  | nil => cases h
  | cons x xs ih =>
    rw [List.cons_append, dictGet_cons, dictGet_cons]
    by_cases hx : x.1 = a
    · rw [if_pos hx, if_pos hx]
    · rw [if_neg hx, if_neg hx]
      have hd2 : a ∈ dictKeys xs := by
        rcases List.mem_cons.mp h with h3 | h3
        · exact absurd h3.symm hx
        · exact h3
      exact ih hd2

theorem dictGet_eq_none (d : Dict) (a : String) :
    dictGet d a = none ↔ a ∉ dictKeys d := by
  induction d with
  | nil => simp [dictGet, dictKeys]
  | cons x xs ih =>
    rw [dictGet_cons, dictKeys_cons]
    by_cases h : x.1 = a
    · simp [h]
    · simp only [if_neg h, ih, List.mem_cons]
      constructor
      · intro hn
        rintro (rfl | hm)
        · exact h rfl
        · exact hn hm
      · intro hn hm
        exact hn (Or.inr hm)

theorem dictGet_dictSet (d : Dict) (k a : String) (v : JValue) :
    dictGet (dictSet d k v) a = if a = k then some v else dictGet d a := by
  unfold dictSet
  split
  · next hc =>
    by_cases hak : a = k
    · subst hak
      rw [if_pos rfl]
      exact dictGet_map_overwrite_self d a v ((contains_iff_mem _ _).mp hc)
    · rw [if_neg hak]
      exact dictGet_map_overwrite_ne d k a v hak
  · next hc =>
    have hk : k ∉ dictKeys d := fun hm => hc ((contains_iff_mem _ _).mpr hm)
    by_cases hak : a = k
    · subst hak
      rw [if_pos rfl, dictGet_append_not_mem _ _ _ hk, dictGet_cons]
      simp
    · rw [if_neg hak]
      by_cases hd : a ∈ dictKeys d
      · exact dictGet_append_mem _ _ _ hd
      · rw [dictGet_append_not_mem _ _ _ hd, dictGet_cons,
            if_neg (fun he : k = a => hak he.symm)]
        exact ((dictGet_eq_none _ _).mpr hd).symm

theorem dictUpdate_cons (d : Dict) (y : String × JValue) (ys : Dict) :
    dictUpdate d (y :: ys) = dictUpdate (dictSet d y.1 y.2) ys := rfl

theorem mem_dictKeys_dictUpdate (d u : Dict) (a : String) :
    a ∈ dictKeys (dictUpdate d u) ↔ a ∈ dictKeys d ∨ a ∈ dictKeys u := by
  induction u generalizing d with
  | nil => simp [dictUpdate, dictKeys]
  | cons y ys ih =>
    rw [dictUpdate_cons, ih, mem_dictKeys_dictSet, dictKeys_cons]
    simp only [List.mem_cons]
    tauto

theorem nodup_dictKeys_dictUpdate (d u : Dict) (h : (dictKeys d).Nodup) :
    (dictKeys (dictUpdate d u)).Nodup := by
  induction u generalizing d with
  | nil => exact h
  | cons y ys ih => exact ih _ (nodup_dictKeys_dictSet _ _ _ h)

theorem dictGet_dictUpdate_not_mem (d u : Dict) (a : String) (h : a ∉ dictKeys u) :
    dictGet (dictUpdate d u) a = dictGet d a := by
  induction u generalizing d with
  | nil => rfl
  | cons y ys ih =>
    have h1 : a ≠ y.1 := fun he => h (he ▸ List.mem_cons_self _ _)
    have h2 : a ∉ dictKeys ys := fun hm => h (List.mem_cons_of_mem _ hm)
    rw [dictUpdate_cons, ih _ h2, dictGet_dictSet, if_neg h1]

theorem dictGet_dictUpdate_mem (d u : Dict) (a : String)
    (hu : (dictKeys u).Nodup) (h : a ∈ dictKeys u) :
    dictGet (dictUpdate d u) a = dictGet u a := by
  induction u generalizing d with
  | nil => cases h
  | cons y ys ih =>
    rw [dictUpdate_cons, dictGet_cons]
    by_cases hay : a = y.1
    · have hys : a ∉ dictKeys ys := by
        rw [dictKeys_cons] at hu
        exact hay ▸ (List.nodup_cons.mp hu).1
      rw [dictGet_dictUpdate_not_mem _ _ _ hys, dictGet_dictSet, if_pos hay,
          if_pos hay.symm]
    · have h2 : a ∈ dictKeys ys := by
        rcases List.mem_cons.mp h with h3 | h3
        · exact absurd h3 hay
        · exact h3
      rw [ih _ ((List.nodup_cons.mp (dictKeys_cons y ys ▸ hu)).2) h2,
          if_neg (fun he : y.1 = a => hay he.symm)]

theorem insertByKey_perm (x : String × JValue) (d : Dict) :
    List.Perm (insertByKey x d) (x :: d) := by
  induction d with
  | nil => exact List.Perm.refl _
  | cons y ys ih =>
    unfold insertByKey
    split
    · exact List.Perm.refl _
    · exact (ih.cons y).trans (List.Perm.swap x y ys)

theorem sortByKey_perm (d : Dict) : List.Perm (sortByKey d) d := by
  induction d with
  | nil => exact List.Perm.refl _
  | cons x xs ih => exact (insertByKey_perm x (sortByKey xs)).trans (ih.cons x)

theorem mem_dictKeys_sortByKey (d : Dict) (a : String) :
    a ∈ dictKeys (sortByKey d) ↔ a ∈ dictKeys d :=
  ((sortByKey_perm d).map Prod.fst).mem_iff

theorem dictGet_eq_some_of_mem (d : Dict) (a : String) (v : JValue)
    (hnd : (dictKeys d).Nodup) (h : (a, v) ∈ d) : dictGet d a = some v := by
  induction d with
  | nil => cases h
  | cons x xs ih =>
    rw [dictGet_cons]
    rcases List.mem_cons.mp h with h1 | h1
    · rw [if_pos (congrArg Prod.fst h1).symm]
      rw [← h1]
    · have hx : x.1 ≠ a := by
        intro he
        have ha : a ∈ dictKeys xs := List.mem_map_of_mem Prod.fst h1
        rw [dictKeys_cons] at hnd
        exact (List.nodup_cons.mp hnd).1 (he ▸ ha)
      rw [if_neg hx]
      exact ih ((List.nodup_cons.mp (dictKeys_cons x xs ▸ hnd)).2) h1

theorem mem_of_dictGet_eq_some (d : Dict) (a : String) (v : JValue)
    (h : dictGet d a = some v) : (a, v) ∈ d := by
  induction d with
  | nil => simp [dictGet] at h
  | cons x xs ih =>
    rw [dictGet_cons] at h
    by_cases hx : x.1 = a
    · rw [if_pos hx] at h
      have hv : x.2 = v := Option.some.inj h
      have hxa : x = (a, v) := by
        obtain ⟨k, w⟩ := x
        simp only at hx hv
        simp [hx, hv]
      rw [← hxa]
      exact List.mem_cons_self _ _
    · rw [if_neg hx] at h
      exact List.mem_cons_of_mem _ (ih h)

theorem dictGet_sortByKey (d : Dict) (a : String) (hnd : (dictKeys d).Nodup) :
    dictGet (sortByKey d) a = dictGet d a := by
  have hperm := sortByKey_perm d
  have hkeys : List.Perm (dictKeys (sortByKey d)) (dictKeys d) := hperm.map Prod.fst
  have hnd2 : (dictKeys (sortByKey d)).Nodup := hkeys.nodup_iff.mpr hnd
  cases hg : dictGet d a with
  | none =>
    have hm : a ∉ dictKeys d := (dictGet_eq_none d a).mp hg
    exact (dictGet_eq_none _ a).mpr (fun hm2 => hm (hkeys.mem_iff.mp hm2))
  | some v =>
    exact dictGet_eq_some_of_mem _ _ _ hnd2 (hperm.mem_iff.mpr (mem_of_dictGet_eq_some _ _ _ hg))


theorem params_get_or_create_slice (name vt : String) (dsrc : Datasource)
    (defaults params : Dict) (st : Store) :
    (get_or_create_slice name vt dsrc defaults params st).1.params =
      sortByKey (dictUpdate (dictSet (dictSet (dictSet (dictSet (dictSet defaults
        "slice_name" (JValue.s (if dsrc.type == "elasticsearch"
          then name ++ " (ES)" else name)))
        "viz_type" (JValue.s vt))
        "datasource_type" (JValue.s dsrc.type))
        "datasource_id" (JValue.i (dsrc.id : Int)))
        "datasource_name" (JValue.s dsrc.name)) params) := rfl

/-- C2 (counterexample): the `Energy Sankey` slice, created with empty
defaults and its literal override params, has `slice_name` among its
persisted blob keys although that key is in neither the defaults nor
the params, so the blob key set is not the union of the two. -/
theorem slice_params_keyset_counterexample :
    ¬ (∀ a, a ∈ dictKeys ((get_or_create_slice "Energy Sankey" "sankey"
          sampleEnergyDatasource [] energySankeyParams Store.empty).1.params) ↔
        (a ∈ dictKeys ([] : Dict) ∨ a ∈ dictKeys energySankeyParams)) := by
  intro h
  have h1 := (h "slice_name").mp (by decide)
  exact (by decide : ¬ ("slice_name" ∈ dictKeys ([] : Dict)
    ∨ "slice_name" ∈ dictKeys energySankeyParams)) h1

set_option maxHeartbeats 1000000 in
/-- C2 (amended): for every slice built by `get_or_create_slice` from
duplicate-free defaults and params, the persisted blob key set is the
union of the defaults keys, the params keys, and the five injected
keys (`slice_name`, `viz_type`, `datasource_type`, `datasource_id`,
`datasource_name`); for every key of the params dict the persisted
value is the override value from params. -/
theorem slice_params_keyset_union (name vt : String) (dsrc : Datasource)
    (defaults params : Dict) (st : Store)
    (hd : (dictKeys defaults).Nodup) (hp : (dictKeys params).Nodup) :
    (∀ a, a ∈ dictKeys ((get_or_create_slice name vt dsrc defaults params st).1.params) ↔
        (a ∈ dictKeys defaults ∨ a ∈ injectedKeys ∨ a ∈ dictKeys params))
    ∧ (∀ a, a ∈ dictKeys params →
        dictGet ((get_or_create_slice name vt dsrc defaults params st).1.params) a
          = dictGet params a) := by
  have hnd5 : (dictKeys (dictSet (dictSet (dictSet (dictSet (dictSet defaults
      "slice_name" (JValue.s (if dsrc.type == "elasticsearch"
        then name ++ " (ES)" else name)))
      "viz_type" (JValue.s vt))
      "datasource_type" (JValue.s dsrc.type))
      "datasource_id" (JValue.i (dsrc.id : Int)))
      "datasource_name" (JValue.s dsrc.name))).Nodup := by
    apply nodup_dictKeys_dictSet
    apply nodup_dictKeys_dictSet
    apply nodup_dictKeys_dictSet
    apply nodup_dictKeys_dictSet
    apply nodup_dictKeys_dictSet
    exact hd
  have hnd6 := nodup_dictKeys_dictUpdate _ params hnd5
  constructor
  · intro a
    rw [params_get_or_create_slice, mem_dictKeys_sortByKey, mem_dictKeys_dictUpdate,
        mem_dictKeys_dictSet, mem_dictKeys_dictSet, mem_dictKeys_dictSet,
        mem_dictKeys_dictSet, mem_dictKeys_dictSet]
    clear hnd5 hnd6
    simp only [injectedKeys, List.mem_cons, List.not_mem_nil]
    tauto
  · intro a ha
    rw [params_get_or_create_slice, dictGet_sortByKey _ _ hnd6,
        dictGet_dictUpdate_mem _ _ _ hp ha]

/-- C2 (witness): the amended key-set statement instantiated at the
`Energy Sankey` slice built from empty defaults. -/
theorem slice_params_keyset_union_witness :
    (dictKeys ([] : Dict)).Nodup ∧ (dictKeys energySankeyParams).Nodup
    ∧ ((∀ a, a ∈ dictKeys ((get_or_create_slice "Energy Sankey" "sankey"
          sampleEnergyDatasource [] energySankeyParams Store.empty).1.params) ↔
        (a ∈ dictKeys ([] : Dict) ∨ a ∈ injectedKeys ∨ a ∈ dictKeys energySankeyParams))
      ∧ (∀ a, a ∈ dictKeys energySankeyParams →
          dictGet ((get_or_create_slice "Energy Sankey" "sankey"
            sampleEnergyDatasource [] energySankeyParams Store.empty).1.params) a
            = dictGet energySankeyParams a)) :=
  ⟨by decide, by decide,
   slice_params_keyset_union "Energy Sankey" "sankey" sampleEnergyDatasource
     [] energySankeyParams Store.empty (by decide) (by decide)⟩


theorem countP_eraseP_self {α : Type} (p : α → Bool) (l : List α)
    (h : l.countP p ≤ 1) : (l.eraseP p).countP p = 0 := by
  induction l with
  | nil => rfl
  | cons x xs ih =>
    by_cases hx : p x
    · rw [List.eraseP_cons_of_pos hx]
      rw [List.countP_cons_of_pos _ _ hx] at h
      omega
    · rw [List.eraseP_cons_of_neg hx, List.countP_cons_of_neg _ _ hx]
      rw [List.countP_cons_of_neg _ _ hx] at h
      exact ih h

theorem filter_eraseP_disjoint {α : Type} (p q : α → Bool) (l : List α)
    (h : ∀ x, p x = true → q x = false) :
    (l.eraseP p).filter q = l.filter q := by
  induction l with
  | nil => rfl
  | cons x xs ih =>
    by_cases hx : p x
    · have hq : ¬ q x = true := by simp [h x hx]
      rw [List.eraseP_cons_of_pos hx, List.filter_cons_of_neg hq]
    · rw [List.eraseP_cons_of_neg hx]
      simp only [List.filter_cons, ih]

theorem name_get_or_create_slice (name vt : String) (dsrc : Datasource)
    (defaults params : Dict) (st : Store) :
    (get_or_create_slice name vt dsrc defaults params st).1.slice_name =
      (if dsrc.type == "elasticsearch" then name ++ " (ES)" else name) := rfl

theorem slices_get_or_create_slice (name vt : String) (dsrc : Datasource)
    (defaults params : Dict) (st : Store) :
    (get_or_create_slice name vt dsrc defaults params st).2.slices =
      st.slices.eraseP (fun o => o.slice_name ==
        (if dsrc.type == "elasticsearch" then name ++ " (ES)" else name))
      ++ [(get_or_create_slice name vt dsrc defaults params st).1] := rfl

theorem suffix_ne (name : String) : ¬ (name ++ " (ES)" = name) := by
  intro h
  have h2 := congrArg String.length h
  have h5 : (" (ES)" : String).length = 5 := rfl
  rw [String.length_append, h5] at h2
  omega

/-- C9: for an elasticsearch datasource, the slice created by
`get_or_create_slice` is persisted under the requested name suffixed
with `" (ES)"`; after the call exactly one slice of the suffixed name
exists (the lookup-and-delete also targets the suffixed name), while
the slices stored under the unsuffixed name are left untouched. -/
theorem es_slice_suffixed (name vt : String) (dsrc : Datasource)
    (defaults params : Dict) (st : Store)
    (hES : dsrc.type = "elasticsearch")
    (hcount : st.slices.countP (fun o => o.slice_name == name ++ " (ES)") ≤ 1) :
    (get_or_create_slice name vt dsrc defaults params st).1.slice_name = name ++ " (ES)"
    ∧ (get_or_create_slice name vt dsrc defaults params st).2.slices.countP
        (fun o => o.slice_name == name ++ " (ES)") = 1
    ∧ (get_or_create_slice name vt dsrc defaults params st).2.slices.filter
        (fun o => o.slice_name == name)
      = st.slices.filter (fun o => o.slice_name == name) := by
  have hn : (if dsrc.type == "elasticsearch" then name ++ " (ES)" else name)
      = name ++ " (ES)" := by
    simp [hES]
  have h1 : (get_or_create_slice name vt dsrc defaults params st).1.slice_name
      = name ++ " (ES)" := by
    rw [name_get_or_create_slice, hn]
  refine ⟨h1, ?_, ?_⟩
  · rw [slices_get_or_create_slice, hn, List.countP_append,
        countP_eraseP_self _ _ hcount]
    simp [List.countP_cons, h1]
  · rw [slices_get_or_create_slice, hn, List.filter_append]
    have hne : ∀ o : SliceRecord,
        (o.slice_name == name ++ " (ES)") = true → (o.slice_name == name) = false := by
      intro o ho
      have ho2 : o.slice_name = name ++ " (ES)" := by simpa using ho
      simp [ho2, suffix_ne name]
    rw [filter_eraseP_disjoint _ _ _ hne]
    have h2 : ((get_or_create_slice name vt dsrc defaults params st).1.slice_name
        == name) = false := by
      simp [h1, suffix_ne name]
    simp [List.filter_cons, h2]

/-- C9 (witness): the suffixing statement instantiated at a store
already holding a `Girls` slice and a `Girls (ES)` slice, with an
elasticsearch datasource. -/
theorem es_slice_suffixed_witness :
    sampleEsDatasource.type = "elasticsearch"
    ∧ sampleEsStore.slices.countP (fun o => o.slice_name == "Girls" ++ " (ES)") ≤ 1
    ∧ ((get_or_create_slice "Girls" "table" sampleEsDatasource [] [] sampleEsStore).1.slice_name
        = "Girls" ++ " (ES)"
      ∧ (get_or_create_slice "Girls" "table" sampleEsDatasource [] [] sampleEsStore).2.slices.countP
          (fun o => o.slice_name == "Girls" ++ " (ES)") = 1
      ∧ (get_or_create_slice "Girls" "table" sampleEsDatasource [] [] sampleEsStore).2.slices.filter
          (fun o => o.slice_name == "Girls")
        = sampleEsStore.slices.filter (fun o => o.slice_name == "Girls")) :=
  ⟨rfl, by decide,
   es_slice_suffixed "Girls" "table" sampleEsDatasource [] [] sampleEsStore rfl (by decide)⟩


theorem sqlTables_import_table_ref (cfg : Config) (n dsc : String) (st : Store) :
    ((import_table_ref cfg n dsc st).2).sqlTables = st.sqlTables := by
  unfold import_table_ref get_or_create_db mergeTable
  dsimp only []
  repeat' split
  all_goals rfl

theorem getSql_import_table_ref (cfg : Config) (n dsc m : String) (st : Store) :
    getSql (import_table_ref cfg n dsc st).2 m = getSql st m := by
  unfold getSql
  rw [sqlTables_import_table_ref]

theorem find?_filter_not_append {α : Type} (p : α → Bool) (l : List α) (a : α)
    (ha : p a = true) :
    (l.filter (fun x => !(p x)) ++ [a]).find? p = some a := by
  induction l with
  | nil => simp [ha]
  | cons x xs ih =>
    by_cases hx : p x
    · simpa [List.filter_cons, hx] using ih
    · simpa [List.filter_cons, hx, List.find?_cons] using ih

theorem getSql_to_sql_self (n : String) (df : Frame) (st : Store) :
    getSql (to_sql n df st) n = some df := by
  unfold getSql to_sql
  rw [find?_filter_not_append (fun e => e.1 == n) st.sqlTables (n, df) (by simp)]
  rfl

theorem getCol_cons_ne (c : String × List Value) (cs : Frame) (n : String)
    (h : (c.1 == n) = false) : getCol (c :: cs) n = getCol cs n := by
  simp [getCol, List.find?_cons, h]

theorem getCol_modifyCol (df : Frame) (n : String) (f : List Value → List Value) :
    getCol (modifyCol df n f) n = (getCol df n).map f := by
  induction df with
  | nil => rfl
  | cons c cs ih =>
    by_cases hc : c.1 = n
    · have hcb : (c.1 == n) = true := by simp [hc]
      have hm : modifyCol (c :: cs) n f = (c.1, f c.2) :: modifyCol cs n f := by
        show (if c.1 == n then (c.1, f c.2) else c) :: modifyCol cs n f = _
        rw [if_pos hcb]
      rw [hm]
      simp [getCol, List.find?_cons, hcb]
    · have hcb : (c.1 == n) = false := by simp [hc]
      have hcn : ¬ ((c.1 == n) = true) := by simp [hc]
      have hm : modifyCol (c :: cs) n f = c :: modifyCol cs n f := by
        show (if c.1 == n then (c.1, f c.2) else c) :: modifyCol cs n f = _
        rw [if_neg hcn]
      rw [hm, getCol_cons_ne _ _ _ hcb, getCol_cons_ne _ _ _ hcb, ih]

/-- C5: in the relational import path, the frame written to the
relational store for `birth_names` carries a `ds` column equal to the
original (dot-normalized) `ds` column converted by
`pandas.to_datetime` with unit `ms` (milliseconds since epoch), and
for `wb_health_population` a `year` column converted by a plain
`pandas.to_datetime`; the conversion is applied before the write. -/
theorem import_converts_date_columns (cfg : Config) (dsc1 dsc2 : String)
    (df1 df2 : Frame) (st1 st2 : Store) :
    ((getSql (import_data_rel cfg "birth_names" dsc1 df1 st1).2 "birth_names").map
        (fun fr => getCol fr "ds")
      = some ((getCol (renameCols df1) "ds").map (pd_to_datetime TimeUnit.ms)))
    ∧ ((getSql (import_data_rel cfg "wb_health_population" dsc2 df2 st2).2
          "wb_health_population").map (fun fr => getCol fr "year")
      = some ((getCol (renameCols df2) "year").map (pd_to_datetime TimeUnit.std))) := by
  constructor
  · have he : import_data_rel cfg "birth_names" dsc1 df1 st1
        = import_table_ref cfg "birth_names" dsc1
            (to_sql "birth_names"
              (modifyCol (renameCols df1) "ds" (pd_to_datetime TimeUnit.ms)) st1) := rfl
    rw [he, getSql_import_table_ref, getSql_to_sql_self, Option.map_some',
        getCol_modifyCol]
  · have he : import_data_rel cfg "wb_health_population" dsc2 df2 st2
        = import_table_ref cfg "wb_health_population" dsc2
            (to_sql "wb_health_population"
              (modifyCol (renameCols df2) "year" (pd_to_datetime TimeUnit.std)) st2) := rfl
    rw [he, getSql_import_table_ref, getSql_to_sql_self, Option.map_some',
        getCol_modifyCol]

theorem is_featured_import_table_ref (cfg : Config) (n dsc : String) (st : Store) :
    ((import_table_ref cfg n dsc st).1).is_featured = !(n == "random_time_series") := by
  unfold import_table_ref get_or_create_db
  dsimp only []
  repeat' split
  all_goals simp_all

/-- C10: the dataset-metadata record persisted by the relational
importing path has `is_featured = False` exactly when the table name
is `random_time_series`, and `is_featured = True` for every other
table name. -/
theorem import_random_time_series_not_featured (cfg : Config) (tname dsc : String)
    (df : Frame) (st : Store) :
    ((import_data_rel cfg tname dsc df st).1).is_featured
      = !(tname == "random_time_series") :=
  is_featured_import_table_ref cfg tname dsc _

end Caravel
